import Mathlib

/-!
Verification of the media-group forwarding bot (`bot.py`).

The program aggregates Telegram messages that share a `media_group_id` into a
single batch, then forwards the batch to a target channel with a bounded retry
loop.  The embedding below models the two handlers of `bot.py`:

* `forward_message` (bot.py line 86): the inbound message router.  Python's
  mutable global dict `media_group_cache` becomes an explicitly threaded
  association list `MediaGroupCache`; all external effects (the telegram send
  API, replies to the submitter, `asyncio.sleep`, `asyncio.create_task`,
  logging) become an emitted list of `Action` values.
* `process_media_group` (bot.py line 39): the flush task.  The retry loop
  `for attempt in range(max_retries)` becomes structural recursion over the
  list `List.range max_retries`.  The only modelled source of exceptions is
  the `send_media_group` call, driven by an oracle `sendOk : Nat → Bool`
  telling whether the send on a given attempt succeeds; success replies are
  assumed not to raise.

Atomicity: the code runs on a single-threaded asyncio loop, so code between
two `await` points executes indivisibly.  In particular the membership check
at bot.py line 47 and the `pop` at line 51 have no `await` between them; the
model therefore treats the lookup-and-remove (`pop_window`) as one step.

Time is modelled in tenths of a second (so `asyncio.sleep(3)` is 30 units),
which keeps the spec's half-second-granularity scenarios in `Nat`.

Configuration (`config.json` is not part of the source tree): the keyword
list `REMOVE_KEYWORDS` and the channel `TARGET_CHANNEL` are parameters.
-/

namespace TgForward

/-- Python truthiness of an optional string field: `None` and `""` are falsy. -/
def pyTruthy : Option String → Bool
  | none => false
  | some s => s != ""

/-- Whitespace stripped by Python's `str.strip()` (ASCII portion). -/
def pyIsSpace (c : Char) : Bool :=
  c = ' ' || c = '\n' || c = '\t' || c = '\r'

/-- Python `str.strip()`: drop leading and trailing whitespace. -/
def pyStrip (s : String) : String :=
  ⟨((s.data.dropWhile pyIsSpace).reverse.dropWhile pyIsSpace).reverse⟩

/-- One left-to-right non-overlapping replacement pass over a character list,
with explicit fuel (the fuel is always at least the list length, and each
step consumes a character, so the fuel never runs out in `pyReplace`). -/
def replaceFuel (pat rep : List Char) : Nat → List Char → List Char
  | 0, s => s
  | _ + 1, [] => []
  | fuel + 1, c :: cs =>
    if pat.isPrefixOf (c :: cs) then
      rep ++ replaceFuel pat rep fuel ((c :: cs).drop pat.length)
    else
      c :: replaceFuel pat rep fuel cs

/-- Python `str.replace(pat, rep)` for a non-empty pattern (an empty pattern
never arises from a sensible keyword list; it is mapped to the identity). -/
def pyReplace (s pat rep : String) : String :=
  if pat = "" then s else ⟨replaceFuel pat.data rep.data s.data.length s.data⟩

/-- `clean_caption` (bot.py lines 29-32): replace every configured keyword by
the empty string, then strip the result. -/
def clean_caption (remove_keywords : List String) (text : String) : String :=
  pyStrip (remove_keywords.foldl (fun t word => pyReplace t word "") text)

/-- An inbound Telegram message as read by `forward_message`:
`photo` is the list of `file_id`s of the photo sizes (Python reads
`msg.photo[-1].file_id`, the last one), `video` the optional video `file_id`.
`chat_type` is `update.effective_chat.type`. -/
structure Msg where
  message_id : Nat
  text : Option String
  caption : Option String
  photo : List String
  video : Option String
  media_group_id : Option String
  chat_type : String
deriving DecidableEq, Repr

/-- `InputMediaPhoto` / `InputMediaVideo` as built at bot.py lines 63-65. -/
inductive InputMedia where
  | photo (media : String) (caption : Option String)
  | video (media : String) (caption : Option String)
deriving DecidableEq, Repr

/-- The media `file_id` carried by a batch element. -/
def mediaRefOf : InputMedia → String
  | InputMedia.photo m _ => m
  | InputMedia.video m _ => m

/-- The caption carried by a batch element. -/
def mediaCaption : InputMedia → Option String
  | InputMedia.photo _ c => c
  | InputMedia.video _ c => c

/-- Observable effects of the handlers, in program order.  Sleeps are in
tenths of a second. -/
inductive Action where
  | sleep (tenths : Nat)
  | log (line : String)
  | create_task (group_id : String)
  | send_media_group (chat_id : String) (media : List InputMedia)
  | send_message (chat_id : String) (text : String)
  | send_photo (chat_id : String) (photo : String) (caption : String)
  | send_video (chat_id : String) (video : String) (caption : String)
  | reply_text (message_id : Nat) (text : String)
deriving DecidableEq, Repr

/-- The global dict `media_group_cache` (bot.py line 26): group id ↦
(buffered messages in arrival order, accumulated text). -/
abbrev MediaGroupCache := List (String × (List Msg × String))

/-- Dict lookup. -/
def cacheLookup : MediaGroupCache → String → Option (List Msg × String)
  | [], _ => none
  | (k, v) :: rest, key => if k = key then some v else cacheLookup rest key

/-- Dict assignment `media_group_cache[key] = v`. -/
def cacheInsert : MediaGroupCache → String → List Msg × String → MediaGroupCache
  | [], key, v => [(key, v)]
  | (k, w) :: rest, key, v =>
    if k = key then (key, v) :: rest else (k, w) :: cacheInsert rest key v

/-- Dict removal, as performed by `pop`. -/
def cacheErase : MediaGroupCache → String → MediaGroupCache
  | [], _ => []
  | (k, w) :: rest, key =>
    if k = key then cacheErase rest key else (k, w) :: cacheErase rest key

/-- Lines 47-51 of bot.py: the membership test plus `pop`, executed with no
`await` in between, hence one indivisible step on the asyncio loop. -/
def pop_window (group_id : String) (cache : MediaGroupCache) :
    Option (List Msg × String) × MediaGroupCache :=
  match cacheLookup cache group_id with
  | none => (none, cache)
  | some w => (some w, cacheErase cache group_id)

/-- Stable insertion by ascending `message_id`: a new element goes in front
of the first element whose id is ≥ its own.  Used below through a right fold,
this places an earlier arrival before later arrivals of equal id. -/
def insertByMsgId (m : Msg) : List Msg → List Msg
  | [] => [m]
  | x :: xs =>
    if m.message_id ≤ x.message_id then m :: x :: xs else x :: insertByMsgId m xs

/-- `messages.sort(key=lambda msg: msg.message_id)` (bot.py line 53):
Python's sort is stable and ascending, which this insertion sort reproduces. -/
def sortByMsgId (l : List Msg) : List Msg := l.foldr insertByMsgId []

/-- `msg.photo[-1].file_id`: the last photo size (only used when non-empty). -/
def lastFileId (l : List String) : String := l.getLastD ""

/-- The media reference a message contributes to a batch, if any
(bot.py lines 62-65: photo takes precedence over video, a message with
neither is skipped). -/
def mediaOf (m : Msg) : Option String :=
  if m.photo ≠ [] then some (lastFileId m.photo)
  else if m.video.isSome then some (m.video.getD "")
  else none

/-- Whether a message contributes a media element to the batch. -/
def hasMedia (m : Msg) : Bool := (mediaOf m).isSome

/-- The loop `for idx, msg in enumerate(messages)` of bot.py lines 59-65,
started at index `idx`: the caption goes with index 0; a message with a
photo yields an `InputMediaPhoto` of its last size, otherwise a video yields
an `InputMediaVideo`, otherwise the message yields nothing (but still
consumes an index). -/
def build_media_from (cleaned_text : String) : Nat → List Msg → List InputMedia
  | _, [] => []
  | idx, msg :: rest =>
    let caption : Option String := if idx = 0 then some cleaned_text else none
    (if msg.photo ≠ [] then [InputMedia.photo (lastFileId msg.photo) caption]
     else if msg.video.isSome then [InputMedia.video (msg.video.getD "") caption]
     else []) ++ build_media_from cleaned_text (idx + 1) rest

/-- The full `media_list` construction of bot.py lines 58-65. -/
def build_media_list (cleaned_text : String) (messages : List Msg) : List InputMedia :=
  build_media_from cleaned_text 0 messages

/-- `full_text = "\n".join(filter(None, [collected_text]))` (bot.py line 55). -/
def full_text_of (collected_text : String) : String :=
  String.intercalate "\n" (List.filter (fun s => s != "") [collected_text])

/-- `max_retries` (bot.py line 40). -/
def max_retries : Nat := 3

/-- `retry_delay` in seconds (bot.py line 41). -/
def retry_delay : Nat := 2

/-- `messages[0].message_id` of the sorted buffer (the reply target); the
buffer is never empty when this is read, `0` is a dead default. -/
def headMsgId : List Msg → Nat
  | [] => 0
  | m :: _ => m.message_id

/-- The body of `process_media_group` (bot.py lines 43-83) over the list of
remaining attempt indices.  Each iteration: sleep `3 + attempt` seconds, give
up silently if the key is gone, otherwise pop the window, sort, build the
batch and send.  On send success: success reply, done.  On send failure with
attempts left (`attempt < max_retries - 1`, i.e. the remaining list is
non-empty): log, sleep `retry_delay`, loop.  On the last attempt: failure
reply. -/
def process_go (remove_keywords : List String) (target_channel : String)
    (sendOk : Nat → Bool) (media_group_id : String) :
    List Nat → MediaGroupCache → MediaGroupCache × List Action
  | [], cache => (cache, [])
  | attempt :: rest, cache =>
    let pre := [Action.sleep ((3 + attempt) * 10)]
    match pop_window media_group_id cache with
    | (none, _) =>
      (cache, pre ++ [Action.log ("媒体组 " ++ media_group_id ++ " 已过期或不存在")])
    | (some (messages0, collected_text), cache1) =>
      let messages := sortByMsgId messages0
      let cleaned_text := clean_caption remove_keywords (full_text_of collected_text)
      let media_list := build_media_list cleaned_text messages
      let acts := pre ++
        [Action.log ("准备发送媒体组 " ++ media_group_id),
         Action.send_media_group target_channel media_list]
      if sendOk attempt then
        (cache1, acts ++ [Action.reply_text (headMsgId messages) "✅ 媒体组已整理转发到频道"])
      else
        match rest with
        | [] =>
          (cache1, acts ++
            [Action.log ("媒体组转发失败 " ++ media_group_id),
             Action.reply_text (headMsgId messages) "❌ 转发失败，请尝试重新发送"])
        | a2 :: rest2 =>
          let res := process_go remove_keywords target_channel sendOk media_group_id
            (a2 :: rest2) cache1
          (res.1, acts ++
            [Action.log ("媒体组 " ++ media_group_id ++ " 重试"),
             Action.sleep (retry_delay * 10)] ++ res.2)

/-- `process_media_group` (bot.py lines 39-83). -/
def process_media_group (remove_keywords : List String) (target_channel : String)
    (sendOk : Nat → Bool) (media_group_id : String) (cache : MediaGroupCache) :
    MediaGroupCache × List Action :=
  process_go remove_keywords target_channel sendOk media_group_id
    (List.range max_retries) cache

/-- The `text_content` accumulation of bot.py lines 95-99: caption first,
then text, each followed by a newline when truthy. -/
def text_content_of (msg : Msg) : String :=
  (if pyTruthy msg.caption then msg.caption.getD "" ++ "\n" else "") ++
  (if pyTruthy msg.text then msg.text.getD "" ++ "\n" else "")

/-- `forward_message` (bot.py lines 86-130): ignore non-private chats; for a
grouped message either open a window (and spawn the flush task) or append to
the existing one; otherwise send a single message directly — text/caption
first, else photo, else video, else nothing. -/
def forward_message (remove_keywords : List String) (target_channel : String)
    (msg : Msg) (cache : MediaGroupCache) : MediaGroupCache × List Action :=
  if msg.chat_type ≠ "private" then (cache, [])
  else
    match msg.media_group_id with
    | some group_id =>
      let text_content := text_content_of msg
      (match cacheLookup cache group_id with
       | none =>
         (cacheInsert cache group_id ([msg], pyStrip text_content),
          [Action.create_task group_id])
       | some (msgs, collected) =>
         (cacheInsert cache group_id (msgs ++ [msg], collected ++ "\n" ++ pyStrip text_content),
          []))
    | none =>
      if pyTruthy msg.text || pyTruthy msg.caption then
        let source := if pyTruthy msg.text then msg.text.getD "" else msg.caption.getD ""
        (cache,
         [Action.send_message target_channel (clean_caption remove_keywords source),
          Action.reply_text msg.message_id "✅ 文本已转发到频道"])
      else if msg.photo ≠ [] then
        (cache,
         [Action.send_photo target_channel (lastFileId msg.photo)
            (clean_caption remove_keywords (msg.caption.getD "")),
          Action.reply_text msg.message_id "✅ 图片已转发到频道"])
      else if msg.video.isSome then
        (cache,
         [Action.send_video target_channel (msg.video.getD "")
            (clean_caption remove_keywords (msg.caption.getD "")),
          Action.reply_text msg.message_id "✅ 视频已转发到频道"])
      else (cache, [])

/-- The media-group batches among a list of emitted actions. -/
def sent_batches (acts : List Action) : List (List InputMedia) :=
  acts.filterMap fun a =>
    match a with
    | Action.send_media_group _ media => some media
    | _ => none

/-- The user-visible replies among a list of emitted actions. -/
def notifications (acts : List Action) : List (Nat × String) :=
  acts.filterMap fun a =>
    match a with
    | Action.reply_text i t => some (i, t)
    | _ => none

/-- The outbound send-API calls among a list of emitted actions. -/
def sends (acts : List Action) : List Action :=
  acts.filter fun a =>
    match a with
    | Action.send_media_group _ _ => true
    | Action.send_message _ _ => true
    | Action.send_photo _ _ _ => true
    | Action.send_video _ _ _ => true
    | _ => false

/-- Whether an action is a suspension of the handler (`asyncio.sleep`). -/
def is_sleep : Action → Bool
  | Action.sleep _ => true
  | _ => false

/-- Whether an action spawns the flush task (`asyncio.create_task`). -/
def is_create_task : Action → Bool
  | Action.create_task _ => true
  | _ => false

/-- An inbound event with its arrival time, in tenths of a second. -/
structure TimedEvent where
  time10 : Nat
  msg : Msg
deriving DecidableEq, Repr

/-- The flush task created by the first grouped message sleeps
`asyncio.sleep(3 + 0)` before its first pop: 30 tenths of a second. -/
def first_flush_sleep10 : Nat := 30

/-- When the flush task first pops the cache, counted from the first event
of the group: the task is created by the first event and nothing ever rearms
or postpones it. -/
def fire_time10 (events : List TimedEvent) : Nat :=
  (match events with
   | [] => 0
   | e :: _ => e.time10) + first_flush_sleep10

/-- Timed run of one group: every event arriving strictly before the flush
task's pop has been routed through `forward_message` (in arrival order) by
the time the pop executes; the flush then runs `process_media_group` on the
resulting cache.  Returns the pop time and the flush result. -/
def run_grouped (remove_keywords : List String) (target_channel : String)
    (media_group_id : String) (events : List TimedEvent) :
    Nat × (MediaGroupCache × List Action) :=
  let fire := fire_time10 events
  let arrived := events.filter fun e => e.time10 < fire
  let cache := arrived.foldl
    (fun c e => (forward_message remove_keywords target_channel e.msg c).1) []
  (fire, process_media_group remove_keywords target_channel (fun _ => true)
    media_group_id cache)

/-! ### Cache lemmas -/

/-- A key just popped is no longer found. -/
theorem cacheLookup_erase_self (c : MediaGroupCache) (k : String) :
    cacheLookup (cacheErase c k) k = none := by
  induction c with
  | nil => rfl
  | cons p rest ih =>
    obtain ⟨k0, v0⟩ := p
    by_cases h : k0 = k
    · simpa [cacheErase, h] using ih
    · simpa [cacheErase, cacheLookup, h] using ih

/-- A key just written is found with the written value. -/
theorem cacheLookup_insert_self (c : MediaGroupCache) (k : String) (v : List Msg × String) :
    cacheLookup (cacheInsert c k v) k = some v := by
  induction c with
  | nil => simp [cacheInsert, cacheLookup]
  | cons p rest ih =>
    obtain ⟨k0, v0⟩ := p
    by_cases h : k0 = k
    · simp [cacheInsert, h, cacheLookup]
    · simpa [cacheInsert, cacheLookup, h] using ih

/-! ### Sort lemmas: the batch order is the stable ascending sort -/

/-- Key order used by the sort. -/
def msgIdLe (a b : Msg) : Prop := a.message_id ≤ b.message_id

/-- Inserting permutes: the result holds the new element and the old ones. -/
theorem insertByMsgId_perm (m : Msg) (l : List Msg) :
    List.Perm (insertByMsgId m l) (m :: l) := by
  induction l with
  | nil => exact List.Perm.refl _
  | cons x xs ih =>
    by_cases h : m.message_id ≤ x.message_id
    · rw [insertByMsgId, if_pos h]
    · rw [insertByMsgId, if_neg h]
      exact (ih.cons x).trans (List.Perm.swap m x xs)

/-- The sorted buffer is a permutation of the arrival buffer. -/
theorem sortByMsgId_perm (l : List Msg) : List.Perm (sortByMsgId l) l := by
  induction l with
  | nil => exact List.Perm.refl _
  | cons x xs ih =>
    have : sortByMsgId (x :: xs) = insertByMsgId x (sortByMsgId xs) := rfl
    rw [this]
    exact (insertByMsgId_perm x (sortByMsgId xs)).trans (ih.cons x)

/-- Insertion preserves sortedness by message id. -/
theorem insertByMsgId_sorted (m : Msg) (l : List Msg)
    (h : List.Sorted msgIdLe l) : List.Sorted msgIdLe (insertByMsgId m l) := by
  induction l with
  | nil => simp [insertByMsgId, List.sorted_singleton]
  | cons x xs ih =>
    rw [List.sorted_cons] at h
    obtain ⟨hx, hxs⟩ := h
    by_cases hle : m.message_id ≤ x.message_id
    · rw [insertByMsgId, if_pos hle, List.sorted_cons]
      refine ⟨?_, ?_⟩
      · intro b hb
        rcases List.mem_cons.mp hb with hbx | hbxs
        · subst hbx; exact hle
        · exact le_trans hle (hx b hbxs)
      · rw [List.sorted_cons]; exact ⟨hx, hxs⟩
    · rw [insertByMsgId, if_neg hle, List.sorted_cons]
      refine ⟨?_, ih hxs⟩
      intro b hb
      have hb2 : b ∈ m :: xs := (insertByMsgId_perm m xs).mem_iff.mp hb
      rcases List.mem_cons.mp hb2 with hbm | hbxs
      · subst hbm; exact le_of_not_le hle
      · exact hx b hbxs

/-- The delivered order is ascending in message id. -/
theorem sortByMsgId_sorted (l : List Msg) : List.Sorted msgIdLe (sortByMsgId l) := by
  induction l with
  | nil => exact List.sorted_nil
  | cons x xs ih => exact insertByMsgId_sorted x (sortByMsgId xs) ih

/-- Filtering one message id commutes with insertion: elements skipped on the
way in have strictly smaller ids, so they never share the inserted id. -/
theorem insertByMsgId_filter (m : Msg) (l : List Msg) (k : Nat) :
    (insertByMsgId m l).filter (fun x => x.message_id == k) =
      (if m.message_id == k then [m] else []) ++
        l.filter (fun x => x.message_id == k) := by
  induction l with
  | nil =>
    by_cases h : m.message_id = k
    · simp [insertByMsgId, List.filter, h, beq_iff_eq]
    · have hb : (m.message_id == k) = false := beq_eq_false_iff_ne.mpr h
      simp [insertByMsgId, List.filter, hb]
  | cons x xs ih =>
    by_cases hle : m.message_id ≤ x.message_id
    · rw [insertByMsgId, if_pos hle]
      by_cases h : m.message_id = k <;> simp [List.filter_cons, h, beq_iff_eq]
    · rw [insertByMsgId, if_neg hle, List.filter_cons, List.filter_cons, ih]
      have hlt : x.message_id < m.message_id := Nat.lt_of_not_le hle
      by_cases hm : m.message_id = k
      · have hx : ¬ x.message_id = k := by
          intro hx; exact absurd (hx.trans hm.symm) (Nat.ne_of_lt hlt)
        simp [hm, hx, beq_iff_eq]
      · simp [hm, beq_iff_eq]

/-- Stability: for every message id, the sorted buffer lists the messages of
that id in their arrival order. -/
theorem sortByMsgId_filter (l : List Msg) (k : Nat) :
    (sortByMsgId l).filter (fun x => x.message_id == k) =
      l.filter (fun x => x.message_id == k) := by
  induction l with
  | nil => rfl
  | cons x xs ih =>
    have hs : sortByMsgId (x :: xs) = insertByMsgId x (sortByMsgId xs) := rfl
    rw [hs, insertByMsgId_filter, ih, List.filter_cons]
    by_cases h : x.message_id = k <;> simp [h]

/-! ### Batch construction lemmas -/

/-- The media references of the built batch are exactly those contributed by
the messages, in order. -/
theorem build_media_from_map_ref (c : String) (i : Nat) (l : List Msg) :
    (build_media_from c i l).map mediaRefOf = l.filterMap mediaOf := by
  induction l generalizing i with
  | nil => rfl
  | cons m rest ih =>
    rw [build_media_from, List.filterMap_cons]
    by_cases hp : m.photo ≠ []
    · simp [mediaOf, hp, mediaRefOf, ih]
    · by_cases hv : m.video.isSome <;> simp [mediaOf, hp, hv, mediaRefOf, ih]

/-- From index 1 on, every built element carries no caption. -/
theorem build_media_from_caps_pos (c : String) (i : Nat) (l : List Msg) (hi : i ≠ 0) :
    (build_media_from c i l).map mediaCaption =
      List.replicate (l.countP hasMedia) none := by
  induction l generalizing i with
  | nil => rfl
  | cons m rest ih =>
    rw [build_media_from, List.countP_cons]
    have hnext : i + 1 ≠ 0 := Nat.succ_ne_zero i
    by_cases hp : m.photo ≠ []
    · have hm : hasMedia m = true := by simp [hasMedia, mediaOf, hp]
      simp [hi, hp, hm, mediaCaption, ih (i + 1) hnext, List.replicate_succ, Nat.add_comm]
    · by_cases hv : m.video.isSome
      · have hm : hasMedia m = true := by simp [hasMedia, mediaOf, hp, hv]
        simp [hi, hp, hv, hm, mediaCaption, ih (i + 1) hnext, List.replicate_succ,
          Nat.add_comm]
      · have hm : hasMedia m = false := by simp [hasMedia, mediaOf, hp, hv]
        simp [hp, hv, hm, ih (i + 1) hnext]

/-- Caption placement of the built batch: the merged caption lands on the
element contributed by the first message if that message has media; if the
first message has no media, every element of the batch is caption-free. -/
theorem build_media_list_caps (c : String) (l : List Msg) :
    (build_media_list c l).map mediaCaption =
      (match l with
       | [] => []
       | m :: rest =>
         if hasMedia m then some c :: List.replicate (rest.countP hasMedia) none
         else List.replicate ((m :: rest).countP hasMedia) none) := by
  cases l with
  | nil => rfl
  | cons m rest =>
    rw [build_media_list, build_media_from]
    by_cases hp : m.photo ≠ []
    · have hm : hasMedia m = true := by simp [hasMedia, mediaOf, hp]
      simp [hp, hm, mediaCaption, build_media_from_caps_pos c 1 rest (Nat.succ_ne_zero 0)]
    · by_cases hv : m.video.isSome
      · have hm : hasMedia m = true := by simp [hasMedia, mediaOf, hp, hv]
        simp [hp, hv, hm, mediaCaption,
          build_media_from_caps_pos c 1 rest (Nat.succ_ne_zero 0)]
      · have hm : hasMedia m = false := by simp [hasMedia, mediaOf, hp, hv]
        simp [hp, hv, hm, List.countP_cons,
          build_media_from_caps_pos c 1 rest (Nat.succ_ne_zero 0)]

/-! ### Router step lemmas -/

/-- First grouped message of a key: open the window and spawn the task. -/
theorem forward_grouped_new (kw : List String) (tc : String) (msg : Msg)
    (cache : MediaGroupCache) (g : String)
    (hpriv : msg.chat_type = "private") (hg : msg.media_group_id = some g)
    (h : cacheLookup cache g = none) :
    forward_message kw tc msg cache =
      (cacheInsert cache g ([msg], pyStrip (text_content_of msg)),
       [Action.create_task g]) := by
  simp [forward_message, hpriv, hg, h]

/-- Later grouped message of a key: append to the window, no new task. -/
theorem forward_grouped_append (kw : List String) (tc : String) (msg : Msg)
    (cache : MediaGroupCache) (g : String) (ms : List Msg) (t : String)
    (hpriv : msg.chat_type = "private") (hg : msg.media_group_id = some g)
    (h : cacheLookup cache g = some (ms, t)) :
    forward_message kw tc msg cache =
      (cacheInsert cache g (ms ++ [msg], t ++ "\n" ++ pyStrip (text_content_of msg)),
       []) := by
  simp [forward_message, hpriv, hg, h]

/-- Routing a run of grouped private messages through the handler appends
them all, in arrival order, to the window of their key. -/
theorem foldl_grouped (kw : List String) (tc : String) (g : String)
    (events : List Msg) :
    ∀ (cache : MediaGroupCache) (ms : List Msg) (t : String),
    (∀ e ∈ events, e.chat_type = "private" ∧ e.media_group_id = some g) →
    cacheLookup cache g = some (ms, t) →
    ∃ t2, cacheLookup
        (events.foldl (fun c e => (forward_message kw tc e c).1) cache) g
      = some (ms ++ events, t2) := by
  induction events with
  | nil =>
    intro cache ms t _ h
    exact ⟨t, by simpa using h⟩
  | cons e es ih =>
    intro cache ms t hall h
    obtain ⟨hp, hg⟩ := hall e (List.mem_cons_self e es)
    rw [List.foldl_cons, forward_grouped_append kw tc e cache g ms t hp hg h]
    obtain ⟨t2, ht2⟩ := ih
      (cacheInsert cache g (ms ++ [e], t ++ "\n" ++ pyStrip (text_content_of e)))
      (ms ++ [e]) (t ++ "\n" ++ pyStrip (text_content_of e))
      (fun m hm => hall m (List.mem_cons_of_mem e hm))
      (cacheLookup_insert_self cache g _)
    exact ⟨t2, by simpa using ht2⟩

/-- Starting from an empty cache, a non-empty run of grouped private
messages leaves exactly those messages buffered, in arrival order. -/
theorem foldl_grouped_from_empty (kw : List String) (tc : String) (g : String)
    (e : Msg) (es : List Msg)
    (hall : ∀ m ∈ (e :: es), m.chat_type = "private" ∧ m.media_group_id = some g) :
    ∃ t2, cacheLookup
        ((e :: es).foldl (fun c m => (forward_message kw tc m c).1) []) g
      = some (e :: es, t2) := by
  obtain ⟨hp, hg⟩ := hall e (List.mem_cons_self e es)
  rw [List.foldl_cons, forward_grouped_new kw tc e [] g hp hg rfl]
  obtain ⟨t2, ht2⟩ := foldl_grouped kw tc g es
    (cacheInsert [] g ([e], pyStrip (text_content_of e)))
    [e] (pyStrip (text_content_of e))
    (fun m hm => hall m (List.mem_cons_of_mem e hm))
    (cacheLookup_insert_self [] g _)
  exact ⟨t2, by simpa using ht2⟩

/-! ### Flush-task lemmas -/

/-- One iteration whose key is absent: a log line, nothing else, loop exit. -/
theorem process_go_stale (kw : List String) (tc : String) (ok : Nat → Bool)
    (gid : String) (a : Nat) (rest : List Nat) (cache : MediaGroupCache)
    (h : cacheLookup cache gid = none) :
    process_go kw tc ok gid (a :: rest) cache =
      (cache,
       [Action.sleep ((3 + a) * 10),
        Action.log ("媒体组 " ++ gid ++ " 已过期或不存在")]) := by
  simp [process_go, pop_window, h]

/-- One iteration whose key is present and whose send succeeds: pop, sort,
build, send, success reply. -/
theorem process_go_ok (kw : List String) (tc : String) (ok : Nat → Bool)
    (gid : String) (a : Nat) (rest : List Nat) (cache : MediaGroupCache)
    (ms : List Msg) (t : String)
    (h : cacheLookup cache gid = some (ms, t)) (hok : ok a = true) :
    process_go kw tc ok gid (a :: rest) cache =
      (cacheErase cache gid,
       [Action.sleep ((3 + a) * 10),
        Action.log ("准备发送媒体组 " ++ gid),
        Action.send_media_group tc
          (build_media_list (clean_caption kw (full_text_of t)) (sortByMsgId ms)),
        Action.reply_text (headMsgId (sortByMsgId ms)) "✅ 媒体组已整理转发到频道"]) := by
  simp [process_go, pop_window, h, hok]

/-- One non-final iteration whose key is present and whose send fails: pop,
send attempt, retry log, retry sleep, then the rest of the loop runs on the
cache that no longer holds the key. -/
theorem process_go_fail_step (kw : List String) (tc : String) (ok : Nat → Bool)
    (gid : String) (a a2 : Nat) (rest2 : List Nat) (cache : MediaGroupCache)
    (ms : List Msg) (t : String)
    (h : cacheLookup cache gid = some (ms, t)) (hok : ok a = false) :
    process_go kw tc ok gid (a :: a2 :: rest2) cache =
      ((process_go kw tc ok gid (a2 :: rest2) (cacheErase cache gid)).1,
       [Action.sleep ((3 + a) * 10),
        Action.log ("准备发送媒体组 " ++ gid),
        Action.send_media_group tc
          (build_media_list (clean_caption kw (full_text_of t)) (sortByMsgId ms)),
        Action.log ("媒体组 " ++ gid ++ " 重试"),
        Action.sleep (retry_delay * 10)] ++
        (process_go kw tc ok gid (a2 :: rest2) (cacheErase cache gid)).2) := by
  rw [process_go.eq_def]
  simp [pop_window, h, hok]

/-- `process_media_group` on an absent key (bot.py lines 47-49): the flush
attempt is discarded after one log line; the cache is untouched. -/
theorem process_stale (kw : List String) (tc : String) (ok : Nat → Bool)
    (gid : String) (cache : MediaGroupCache)
    (h : cacheLookup cache gid = none) :
    process_media_group kw tc ok gid cache =
      (cache,
       [Action.sleep 30, Action.log ("媒体组 " ++ gid ++ " 已过期或不存在")]) := by
  have hr : List.range max_retries = [0, 1, 2] := rfl
  rw [process_media_group, hr, process_go_stale kw tc ok gid 0 [1, 2] cache h]

/-- `process_media_group` on a present key with a first send that succeeds:
exactly one pop, one batch send, one success reply. -/
theorem process_first_ok (kw : List String) (tc : String) (ok : Nat → Bool)
    (gid : String) (cache : MediaGroupCache) (ms : List Msg) (t : String)
    (h : cacheLookup cache gid = some (ms, t)) (hok : ok 0 = true) :
    process_media_group kw tc ok gid cache =
      (cacheErase cache gid,
       [Action.sleep 30,
        Action.log ("准备发送媒体组 " ++ gid),
        Action.send_media_group tc
          (build_media_list (clean_caption kw (full_text_of t)) (sortByMsgId ms)),
        Action.reply_text (headMsgId (sortByMsgId ms)) "✅ 媒体组已整理转发到频道"]) := by
  have hr : List.range max_retries = [0, 1, 2] := rfl
  rw [process_media_group, hr, process_go_ok kw tc ok gid 0 [1, 2] cache ms t h hok]

/-- `process_media_group` on a present key when every send fails: the window
is popped on the first attempt, so the second attempt finds the key absent
and exits; in total one send attempt and no reply of any kind. -/
theorem process_all_fail (kw : List String) (tc : String) (gid : String)
    (cache : MediaGroupCache) (ms : List Msg) (t : String)
    (h : cacheLookup cache gid = some (ms, t)) :
    process_media_group kw tc (fun _ => false) gid cache =
      (cacheErase cache gid,
       [Action.sleep 30,
        Action.log ("准备发送媒体组 " ++ gid),
        Action.send_media_group tc
          (build_media_list (clean_caption kw (full_text_of t)) (sortByMsgId ms)),
        Action.log ("媒体组 " ++ gid ++ " 重试"),
        Action.sleep 20,
        Action.sleep 40,
        Action.log ("媒体组 " ++ gid ++ " 已过期或不存在")]) := by
  have hr : List.range max_retries = [0, 1, 2] := rfl
  rw [process_media_group, hr]
  rw [process_go_fail_step kw tc (fun _ => false) gid 0 1 [2] cache ms t h rfl]
  rw [process_go_stale kw tc (fun _ => false) gid 1 [2] (cacheErase cache gid)
    (cacheLookup_erase_self cache gid)]
  rfl

/-! ### Concrete fixtures for witnesses and counterexamples -/

/-- Grouped private photo message, id 1, caption `"Hello"`. -/
def msgHello : Msg :=
  ⟨1, none, some "Hello", ["p1"], none, some "g", "private"⟩

/-- Grouped private photo message, id 2, caption `"World"`. -/
def msgWorld : Msg :=
  ⟨2, none, some "World", ["p2"], none, some "g", "private"⟩

/-- Grouped private message with a caption but no photo and no video (for
example a document of an album), id 1. -/
def msgNoMedia : Msg :=
  ⟨1, none, some "Hello", [], none, some "g", "private"⟩

/-- Grouped private photo message, id 2, no caption. -/
def msgP2 : Msg :=
  ⟨2, none, none, ["p2"], none, some "g", "private"⟩

/-- Grouped private photo message, id 3, no caption. -/
def msgP3 : Msg :=
  ⟨3, none, none, ["p3"], none, some "g", "private"⟩

/-- Ungrouped private message carrying a caption, a photo and a video. -/
def msgSingle : Msg :=
  ⟨7, none, some "hi", ["pp"], some "vv", none, "private"⟩

/-- Message arriving from a non-private chat. -/
def msgGroupChat : Msg :=
  ⟨8, some "hi", none, ["pg"], none, some "h", "group"⟩

/-! ### Claims -/

/-- C1: for every submission key, at most one delivery attempt sequence is
initiated.  The lookup-and-remove (`pop_window`) is one indivisible step of
the asyncio loop, so when two flush triggers race, the one scheduled first
obtains the window and calls the send API (exactly one batch send), while
the other finds the key absent, sends nothing and notifies nobody. -/
theorem c1_at_most_once_flush (kw : List String) (tc gid : String)
    (cache : MediaGroupCache) (w : List Msg × String)
    (h : cacheLookup cache gid = some w) :
    (sent_batches (process_media_group kw tc (fun _ => true) gid cache).2).length = 1 ∧
    sent_batches (process_media_group kw tc (fun _ => true) gid
      (process_media_group kw tc (fun _ => true) gid cache).1).2 = [] ∧
    notifications (process_media_group kw tc (fun _ => true) gid
      (process_media_group kw tc (fun _ => true) gid cache).1).2 = [] := by
  obtain ⟨ms, t⟩ := w
  have h2 := process_stale kw tc (fun _ => true) gid (cacheErase cache gid)
    (cacheLookup_erase_self cache gid)
  rw [process_first_ok kw tc (fun _ => true) gid cache ms t h rfl]
  simp [sent_batches, notifications, h2]

/-- C1 witness: a one-window cache; the first flush sends one batch, the
second flush finds nothing and does nothing. -/
theorem c1_witness :
    cacheLookup [("g", ([msgHello], "Hello"))] "g" = some ([msgHello], "Hello") ∧
    ((sent_batches (process_media_group [] "t" (fun _ => true) "g"
        [("g", ([msgHello], "Hello"))]).2).length = 1 ∧
     sent_batches (process_media_group [] "t" (fun _ => true) "g"
       (process_media_group [] "t" (fun _ => true) "g"
         [("g", ([msgHello], "Hello"))]).1).2 = [] ∧
     notifications (process_media_group [] "t" (fun _ => true) "g"
       (process_media_group [] "t" (fun _ => true) "g"
         [("g", ([msgHello], "Hello"))]).1).2 = []) :=
  ⟨rfl, c1_at_most_once_flush [] "t" "g" [("g", ([msgHello], "Hello"))]
    ([msgHello], "Hello") rfl⟩

/-- C2: routing any non-empty interleaving of grouped private events of one
key through the handler and then flushing delivers exactly one batch, built
from the stable ascending sort of the submitted messages: the batch's media
references are exactly those contributed by the submitted messages (a
permutation of the submissions ordered by ascending message id, messages of
equal id kept in arrival order). -/
theorem c2_batch_exact_sorted_stable (kw : List String) (tc g : String)
    (e : Msg) (es : List Msg)
    (hall : ∀ m ∈ (e :: es), m.chat_type = "private" ∧ m.media_group_id = some g) :
    ∃ c,
      sent_batches (process_media_group kw tc (fun _ => true) g
        ((e :: es).foldl (fun cc m => (forward_message kw tc m cc).1) [])).2
        = [build_media_list c (sortByMsgId (e :: es))] ∧
      (build_media_list c (sortByMsgId (e :: es))).map mediaRefOf
        = (sortByMsgId (e :: es)).filterMap mediaOf ∧
      List.Perm (sortByMsgId (e :: es)) (e :: es) ∧
      List.Sorted msgIdLe (sortByMsgId (e :: es)) ∧
      (∀ k, (sortByMsgId (e :: es)).filter (fun m => m.message_id == k)
        = (e :: es).filter (fun m => m.message_id == k)) := by
  obtain ⟨t2, ht2⟩ := foldl_grouped_from_empty kw tc g e es hall
  refine ⟨clean_caption kw (full_text_of t2), ?_, build_media_from_map_ref _ 0 _,
    sortByMsgId_perm _, sortByMsgId_sorted _, fun k => sortByMsgId_filter _ k⟩
  rw [process_first_ok kw tc (fun _ => true) g _ (e :: es) t2 ht2 rfl]
  simp [sent_batches]

/-- C2 witness: two grouped photo messages arriving with descending ids. -/
theorem c2_witness :
    (∀ m ∈ [msgWorld, msgHello],
      m.chat_type = "private" ∧ m.media_group_id = some "g") ∧
    (∃ c,
      sent_batches (process_media_group [] "t" (fun _ => true) "g"
        ([msgWorld, msgHello].foldl (fun cc m => (forward_message [] "t" m cc).1) [])).2
        = [build_media_list c (sortByMsgId [msgWorld, msgHello])] ∧
      (build_media_list c (sortByMsgId [msgWorld, msgHello])).map mediaRefOf
        = (sortByMsgId [msgWorld, msgHello]).filterMap mediaOf ∧
      List.Perm (sortByMsgId [msgWorld, msgHello]) [msgWorld, msgHello] ∧
      List.Sorted msgIdLe (sortByMsgId [msgWorld, msgHello]) ∧
      (∀ k, (sortByMsgId [msgWorld, msgHello]).filter (fun m => m.message_id == k)
        = [msgWorld, msgHello].filter (fun m => m.message_id == k))) :=
  ⟨by decide, c2_batch_exact_sorted_stable [] "t" "g" msgWorld [msgHello] (by decide)⟩

/-- C3: when every send fails, the code performs exactly one send attempt
and issues no notification at all — not three attempts and one failure
notification as specified.  The window is popped inside the first loop
iteration, so the second iteration finds the key absent and returns before
reaching the send or the failure reply. -/
theorem c3_retry_bug (kw : List String) (tc gid : String)
    (cache : MediaGroupCache) (ms : List Msg) (t : String)
    (h : cacheLookup cache gid = some (ms, t)) :
    (sends (process_media_group kw tc (fun _ => false) gid cache).2).length = 1 ∧
    notifications (process_media_group kw tc (fun _ => false) gid cache).2 = [] := by
  rw [process_all_fail kw tc gid cache ms t h]
  simp [sends, notifications]

/-- C3 witness: a one-window cache with an always-failing send API: one send
attempt, zero notifications. -/
theorem c3_witness :
    cacheLookup [("g", ([msgHello], "Hello"))] "g" = some ([msgHello], "Hello") ∧
    ((sends (process_media_group [] "t" (fun _ => false) "g"
        [("g", ([msgHello], "Hello"))]).2).length = 1 ∧
     notifications (process_media_group [] "t" (fun _ => false) "g"
       [("g", ([msgHello], "Hello"))]).2 = []) :=
  ⟨rfl, c3_retry_bug [] "t" "g" [("g", ([msgHello], "Hello"))] [msgHello] "Hello" rfl⟩

/-- C4 counterexample: arrivals at t=0 and t=1.5 for one key.  Nothing is
rearmed: the single flush task fires a fixed 3 seconds after the FIRST
event, so a delivery (of both items) happens at t=3.0 — before the t=3.5
the claim requires (and before a full quiet period after the most recent
event, which would end at t=4.5). -/
theorem c4_counterexample :
    (run_grouped [] "t" "g" [⟨0, msgHello⟩, ⟨15, msgWorld⟩]).1 = 30 ∧
    30 < 35 ∧ 30 < 15 + 30 ∧
    (sent_batches (run_grouped [] "t" "g"
        [⟨0, msgHello⟩, ⟨15, msgWorld⟩]).2.2).map (List.map mediaRefOf)
      = [["p1", "p2"]] := by
  refine ⟨rfl, by norm_num, by norm_num, by decide⟩

/-- C4 amended: a second event arriving before the flush fires does not
rearm anything (there is no generation counter); the flush still fires a
fixed 3 seconds after the first event and its batch contains both events'
messages, in stable ascending id order. -/
theorem c4_amended_fixed_flush (kw : List String) (tc g : String)
    (e1 e2 : TimedEvent)
    (h1p : e1.msg.chat_type = "private") (h1g : e1.msg.media_group_id = some g)
    (h2p : e2.msg.chat_type = "private") (h2g : e2.msg.media_group_id = some g)
    (hlt : e2.time10 < e1.time10 + first_flush_sleep10) :
    (run_grouped kw tc g [e1, e2]).1 = e1.time10 + first_flush_sleep10 ∧
    ∃ c, sent_batches (run_grouped kw tc g [e1, e2]).2.2
      = [build_media_list c (sortByMsgId [e1.msg, e2.msg])] := by
  have hall : ∀ m ∈ [e1.msg, e2.msg],
      m.chat_type = "private" ∧ m.media_group_id = some g := by
    intro m hm
    rcases List.mem_cons.mp hm with hm1 | hm2
    · subst hm1; exact ⟨h1p, h1g⟩
    · rcases List.mem_cons.mp hm2 with hm3 | hm4
      · subst hm3; exact ⟨h2p, h2g⟩
      · cases hm4
  obtain ⟨t2, ht2⟩ := foldl_grouped_from_empty kw tc g e1.msg [e2.msg] hall
  have ha : e1.time10 < fire_time10 [e1, e2] := by
    have h0 : (0 : Nat) < first_flush_sleep10 := by norm_num [first_flush_sleep10]
    have := Nat.lt_add_of_pos_right (n := e1.time10) h0
    simpa [fire_time10] using this
  have hb : e2.time10 < fire_time10 [e1, e2] := by
    simpa [fire_time10] using hlt
  have hfilter : ([e1, e2].filter fun e => decide (e.time10 < fire_time10 [e1, e2]))
      = [e1, e2] := by
    simp [List.filter_cons, ha, hb]
  have hlook : cacheLookup
      ([e1, e2].foldl (fun c e => (forward_message kw tc e.msg c).1) []) g
      = some ([e1.msg, e2.msg], t2) := ht2
  refine ⟨rfl, clean_caption kw (full_text_of t2), ?_⟩
  show sent_batches (process_media_group kw tc (fun _ => true) g
    (([e1, e2].filter fun e => decide (e.time10 < fire_time10 [e1, e2])).foldl
      (fun c e => (forward_message kw tc e.msg c).1) [])).2 = _
  rw [hfilter, process_first_ok kw tc (fun _ => true) g _ [e1.msg, e2.msg] t2 hlook rfl]
  simp [sent_batches]

/-- C4 amended witness: the t=0 / t=1.5 scenario, delivery fires at 3.0s with
both items batched. -/
theorem c4_amended_witness :
    ((⟨15, msgWorld⟩ : TimedEvent).time10 <
      (⟨0, msgHello⟩ : TimedEvent).time10 + first_flush_sleep10) ∧
    ((run_grouped [] "t" "g" [⟨0, msgHello⟩, ⟨15, msgWorld⟩]).1
        = (⟨0, msgHello⟩ : TimedEvent).time10 + first_flush_sleep10 ∧
     ∃ c, sent_batches (run_grouped [] "t" "g" [⟨0, msgHello⟩, ⟨15, msgWorld⟩]).2.2
       = [build_media_list c (sortByMsgId [msgHello, msgWorld])]) :=
  ⟨by decide, c4_amended_fixed_flush [] "t" "g" ⟨0, msgHello⟩ ⟨15, msgWorld⟩
    rfl rfl rfl rfl (by decide)⟩

/-- C5 counterexample: an album whose first message in sort order carries no
photo and no video (for example a document) but two later messages carry
photos.  The delivered multi-item batch attaches the merged caption to NO
item — the caption `"Hello"` is computed (second conjunct) and dropped with
the first sorted message — refuting that it is attached to exactly one item. -/
theorem c5_counterexample :
    sent_batches (process_media_group [] "t" (fun _ => true) "g"
      ([msgNoMedia, msgP2, msgP3].foldl (fun c m => (forward_message [] "t" m c).1) [])).2
      = [[InputMedia.photo "p2" none, InputMedia.photo "p3" none]] ∧
    clean_caption [] (full_text_of "Hello\n\n") = "Hello" := by
  refine ⟨by decide, by decide⟩

/-- C5 amended: the merged caption is attached to at most one item: when the
first message in sort order carries media, the first batch item carries the
caption and all others carry none; when it does not, every item of the
batch carries no caption. -/
theorem c5_amended_caption_policy (kw : List String) (tc gid : String)
    (cache : MediaGroupCache) (ms : List Msg) (t : String)
    (h : cacheLookup cache gid = some (ms, t)) :
    ∃ c, sent_batches (process_media_group kw tc (fun _ => true) gid cache).2
        = [build_media_list c (sortByMsgId ms)] ∧
      (build_media_list c (sortByMsgId ms)).map mediaCaption =
        (match sortByMsgId ms with
         | [] => []
         | m :: rest =>
           if hasMedia m then some c :: List.replicate (rest.countP hasMedia) none
           else List.replicate ((m :: rest).countP hasMedia) none) := by
  refine ⟨clean_caption kw (full_text_of t), ?_, build_media_list_caps _ _⟩
  rw [process_first_ok kw tc (fun _ => true) gid cache ms t h rfl]
  simp [sent_batches]

/-- C5 amended witness: with the first sorted message media-bearing, the
caption sits on the first item only. -/
theorem c5_amended_witness :
    cacheLookup [("g", ([msgWorld, msgHello], "Hello"))] "g"
      = some ([msgWorld, msgHello], "Hello") ∧
    (∃ c, sent_batches (process_media_group [] "t" (fun _ => true) "g"
        [("g", ([msgWorld, msgHello], "Hello"))]).2
        = [build_media_list c (sortByMsgId [msgWorld, msgHello])] ∧
      (build_media_list c (sortByMsgId [msgWorld, msgHello])).map mediaCaption =
        (match sortByMsgId [msgWorld, msgHello] with
         | [] => []
         | m :: rest =>
           if hasMedia m then some c :: List.replicate (rest.countP hasMedia) none
           else List.replicate ((m :: rest).countP hasMedia) none)) :=
  ⟨rfl, c5_amended_caption_policy [] "t" "g" [("g", ([msgWorld, msgHello], "Hello"))]
    [msgWorld, msgHello] "Hello" rfl⟩

/-- C6: the fragments `"Hello"` and `"World"` accumulate to
`"Hello\nWorld"`; with configured keyword `"World"` the cleaned caption is
`"Hello"` (keyword removed, trimmed) and it is attached to the first batch
item only. -/
theorem c6_caption_merge_clean :
    clean_caption ["World"] "Hello\nWorld" = "Hello" ∧
    sent_batches (process_media_group ["World"] "t" (fun _ => true) "g"
      ([msgHello, msgWorld].foldl (fun c m => (forward_message ["World"] "t" m c).1) [])).2
      = [[InputMedia.photo "p1" (some "Hello"), InputMedia.photo "p2" none]] := by
  refine ⟨by decide, by decide⟩

/-- C7: an ungrouped private message is handled without touching the
aggregation table — the cache is returned unchanged, no sleep and no task
creation occur — and when the message has any content (text, caption, photo
or video) exactly one send is issued immediately. -/
theorem c7_ungrouped_direct_frame (kw : List String) (tc : String) (msg : Msg)
    (cache : MediaGroupCache)
    (hpriv : msg.chat_type = "private") (hg : msg.media_group_id = none) :
    (forward_message kw tc msg cache).1 = cache ∧
    (∀ a ∈ (forward_message kw tc msg cache).2,
      is_sleep a = false ∧ is_create_task a = false) ∧
    ((pyTruthy msg.text || pyTruthy msg.caption) = true ∨ msg.photo ≠ [] ∨
        msg.video.isSome = true →
      (sends (forward_message kw tc msg cache).2).length = 1) := by
  by_cases h1 : (pyTruthy msg.text || pyTruthy msg.caption) = true
  · simp [forward_message, hpriv, hg, h1, sends, is_sleep, is_create_task]
  · by_cases h2 : msg.photo = []
    · by_cases h3 : msg.video.isSome = true
      · simp [forward_message, hpriv, hg, h1, h2, h3, sends, is_sleep, is_create_task,
          Bool.not_eq_true]
      · simp [forward_message, hpriv, hg, h1, h2, h3, sends, is_sleep, is_create_task,
          Bool.not_eq_true]
    · simp [forward_message, hpriv, hg, h1, h2, sends, is_sleep, is_create_task,
        Bool.not_eq_true]

/-- C7 witness: an ungrouped private message with caption, photo and video. -/
theorem c7_witness :
    msgSingle.chat_type = "private" ∧ msgSingle.media_group_id = none ∧
    ((forward_message [] "t" msgSingle []).1 = [] ∧
     (∀ a ∈ (forward_message [] "t" msgSingle []).2,
       is_sleep a = false ∧ is_create_task a = false) ∧
     ((pyTruthy msgSingle.text || pyTruthy msgSingle.caption) = true ∨
         msgSingle.photo ≠ [] ∨ msgSingle.video.isSome = true →
       (sends (forward_message [] "t" msgSingle []).2).length = 1)) :=
  ⟨rfl, rfl, c7_ungrouped_direct_frame [] "t" msgSingle [] rfl rfl⟩

/-- C8: a flush firing for a key absent from the cache is discarded: the
handler emits one log line, performs no send, no retry and no reply, and
returns the cache unchanged. -/
theorem c8_stale_flush_discarded (kw : List String) (tc : String)
    (ok : Nat → Bool) (gid : String) (cache : MediaGroupCache)
    (h : cacheLookup cache gid = none) :
    process_media_group kw tc ok gid cache =
      (cache,
       [Action.sleep 30, Action.log ("媒体组 " ++ gid ++ " 已过期或不存在")]) :=
  process_stale kw tc ok gid cache h

/-- C8 witness: flushing an empty cache. -/
theorem c8_witness :
    cacheLookup [] "g" = none ∧
    process_media_group [] "t" (fun _ => true) "g" [] =
      ([], [Action.sleep 30, Action.log ("媒体组 " ++ "g" ++ " 已过期或不存在")]) :=
  ⟨rfl, c8_stale_flush_discarded [] "t" (fun _ => true) "g" [] rfl⟩

/-- C9: an ungrouped private message with truthy text or caption is
forwarded as a text-only message — the emitted actions are exactly one
`send_message` with the cleaned text and one success reply, so its photo or
video is never sent. -/
theorem c9_text_precedence_over_media (kw : List String) (tc : String)
    (msg : Msg) (cache : MediaGroupCache)
    (hpriv : msg.chat_type = "private") (hg : msg.media_group_id = none)
    (htext : (pyTruthy msg.text || pyTruthy msg.caption) = true) :
    forward_message kw tc msg cache =
      (cache,
       [Action.send_message tc (clean_caption kw
          (if pyTruthy msg.text then msg.text.getD "" else msg.caption.getD "")),
        Action.reply_text msg.message_id "✅ 文本已转发到频道"]) := by
  simp [forward_message, hpriv, hg, htext]

/-- C9 witness: a message carrying a caption, a photo and a video is
forwarded as text only. -/
theorem c9_witness :
    msgSingle.chat_type = "private" ∧ msgSingle.media_group_id = none ∧
    (pyTruthy msgSingle.text || pyTruthy msgSingle.caption) = true ∧
    forward_message [] "t" msgSingle [] =
      ([],
       [Action.send_message "t" (clean_caption []
          (if pyTruthy msgSingle.text then msgSingle.text.getD ""
           else msgSingle.caption.getD "")),
        Action.reply_text msgSingle.message_id "✅ 文本已转发到频道"]) :=
  ⟨rfl, rfl, rfl, c9_text_precedence_over_media [] "t" msgSingle [] rfl rfl rfl⟩

/-- C10: a message from a non-private chat is ignored: the handler returns
the cache unchanged and emits no action at all. -/
theorem c10_non_private_noop (kw : List String) (tc : String) (msg : Msg)
    (cache : MediaGroupCache) (h : msg.chat_type ≠ "private") :
    forward_message kw tc msg cache = (cache, []) := by
  simp [forward_message, h]

/-- C10 witness: a grouped media message from a group chat does nothing. -/
theorem c10_witness :
    msgGroupChat.chat_type ≠ "private" ∧
    forward_message [] "t" msgGroupChat [("g", ([msgHello], "Hello"))] =
      ([("g", ([msgHello], "Hello"))], []) :=
  ⟨by decide, c10_non_private_noop [] "t" msgGroupChat
    [("g", ([msgHello], "Hello"))] (by decide)⟩

end TgForward
